import Mathlib

/-!
Verification of the work_station invoice-OCR pipeline (backend/app.py,
backend/param.py) against its natural-language specification.

Text lines are modelled as lists of characters.  The regular expressions of
`param.py` are compiled by hand into matching functions; each matcher
implements the leftmost-match semantics of Python `re.search` for its
particular pattern (for these patterns greedy maximal munch never needs to
backtrack across sub-groups, as argued in the comments).  `\d` is modelled as
the ASCII digits, `\s` as ASCII whitespace, which covers every string these
claims touch.
-/

namespace WorkStation

/-- A recognized text line (Python `str`), as a list of characters. -/
abbrev Line := List Char

/-- Character class `[A-Z]`. -/
def isUpperAZ (c : Char) : Bool := 'A' ≤ c && c ≤ 'Z'

/-- Character class `\d` (ASCII model). -/
def isDigit09 (c : Char) : Bool := '0' ≤ c && c ≤ '9'

/-- Character class of the date separators (dash or slash). -/
def isDateSep (c : Char) : Bool := c == '-' || c == '/'

/-- Character class `\s` (ASCII model). -/
def isSpaceC (c : Char) : Bool := c == ' ' || c == '\t' || c == '\n' || c == '\r'

/-- Character class `[lL公升]` of `quantity_pattern`. -/
def isVolumeUnit (c : Char) : Bool := c == 'l' || c == 'L' || c == '公' || c == '升'

/-- Does `pat` occur at the start of `s`? -/
def isPrefixL : Line → Line → Bool
  | [], _ => true
  | _ :: _, [] => false
  | a :: as, b :: bs => a == b && isPrefixL as bs

/-- Python substring containment `pat in hay`. -/
def containsSub (hay pat : Line) : Bool :=
  if isPrefixL pat hay then true
  else
    match hay with
    | [] => false
    | _ :: t => containsSub t pat

/-- Worker for replaceAll, structurally recursive on a fuel bound so that it
computes inside the kernel; each step consumes at least one character, so a
fuel of the string's length is exact. -/
def replaceAllFuel (pat rep : Line) : Nat → Line → Line
  | 0, s => s
  | fuel + 1, s =>
    if pat ≠ [] ∧ isPrefixL pat s = true then
      rep ++ replaceAllFuel pat rep fuel (s.drop pat.length)
    else
      match s with
      | [] => []
      | c :: t => c :: replaceAllFuel pat rep fuel t

/-- Python `str.replace`: replace every non-overlapping occurrence of `pat`
(nonempty in all uses) by `rep`, scanning left to right. -/
def replaceAll (pat rep : Line) (s : Line) : Line :=
  replaceAllFuel pat rep s.length s

/-- Generic leftmost search (Python `pattern.search`): try the positional
matcher `m` at every start position, left to right. -/
def searchO (m : Line → Option Line) : Line → Option Line
  | [] => m []
  | c :: t =>
    match m (c :: t) with
    | some r => some r
    | none => searchO m t

/-- Split off the maximal run of leading ASCII digits. -/
def takeDigits : Line → Line × Line
  | [] => ([], [])
  | c :: t =>
    if isDigit09 c then
      let (d, r) := takeDigits t
      (c :: d, r)
    else ([], c :: t)

/-- Exactly `n` digits from the front, returning them and the rest. -/
def exactDigits : Nat → Line → Option (Line × Line)
  | 0, s => some ([], s)
  | n + 1, c :: t =>
    if isDigit09 c then (exactDigits n t).map (fun p => (c :: p.1, p.2)) else none
  | _ + 1, [] => none

/-- Digit string to the number `int()` yields on it. -/
def natFromDigits (s : Line) : Nat :=
  s.foldl (fun acc c => acc * 10 + (c.toNat - '0'.toNat)) 0

/-- Decimal digits of `n`, zero-padded on the left to width `w`
(Python `f"{n:0wd}"`). -/
def padNat (w n : Nat) : Line :=
  let d := Nat.toDigits 10 n
  List.replicate (w - d.length) '0' ++ d

/-!  The compiled patterns of backend/param.py, as positional matchers.  Each
matcher tries to match its pattern at the start of the given suffix and
returns the text the code reads off the match object. -/

/-- Positional matcher for invoice_number_pattern, two capitals, a dash and
exactly eight digits.  The pattern has fixed length, so no backtracking
arises. -/
def matchInvoiceAt : Line → Option Line
  | a :: b :: '-' :: rest =>
    if isUpperAZ a && isUpperAZ b && (rest.take 8).length == 8 && (rest.take 8).all isDigit09 then
      some (a :: b :: '-' :: rest.take 8)
    else none
  | _ => none

/-- Python fullmatch of invoice_number_pattern (two capitals, dash, exactly
eight digits), the validation at app.py line 278. -/
def fullmatchInvoice8 : Line → Bool
  | a :: b :: c :: rest =>
    isUpperAZ a && isUpperAZ b && c == '-' && rest.length == 8 && rest.all isDigit09
  | _ => false

/-- Fullmatch of the canonical grammar the specification states: two capitals,
a dash and seven or eight digits. -/
def fullmatchInvoice78 : Line → Bool
  | a :: b :: c :: rest =>
    isUpperAZ a && isUpperAZ b && c == '-' &&
      (rest.length == 7 || rest.length == 8) && rest.all isDigit09
  | _ => false

/-- Positional matcher for date_pattern: four digits, separator, two digits,
separator, two digits.  Fixed shape, no backtracking. -/
def matchDateAt : Line → Option Line
  | a :: b :: c :: d :: s1 :: e :: f :: s2 :: g :: h :: _ =>
    if [a, b, c, d].all isDigit09 && isDateSep s1 && isDigit09 e && isDigit09 f &&
        isDateSep s2 && isDigit09 g && isDigit09 h then
      some [a, b, c, d, s1, e, f, s2, g, h]
    else none
  | _ => none

/-- Python fullmatch of date_pattern, the validation at app.py line 279. -/
def fullmatchDate : Line → Bool
  | [a, b, c, d, s1, e, f, s2, g, h] =>
    [a, b, c, d].all isDigit09 && isDateSep s1 && isDigit09 e && isDigit09 f &&
      isDateSep s2 && isDigit09 g && isDigit09 h
  | _ => false

/-- Positional matcher for quantity_pattern: digits, an optional dot, digits,
optional whitespace, then one volume-unit character; returns capture group 1
(the number without the unit).  Greedy maximal munch is exact here: handing
characters back from the digit runs or the dot leaves a digit or a dot at the
cursor, which can match neither the whitespace run nor the unit class. -/
def matchQuantityAt (s : Line) : Option Line :=
  let p1 := takeDigits s
  if p1.1.isEmpty then none
  else
    let dotted : Line × Line :=
      match p1.2 with
      | '.' :: t => (['.'], t)
      | r => ([], r)
    let p2 := takeDigits dotted.2
    match p2.2.dropWhile isSpaceC with
    | u :: _ => if isVolumeUnit u then some (p1.1 ++ dotted.1 ++ p2.1) else none
    | [] => none

/-- Positional matcher for quantity_fallback_pattern: digits, a dot, digits;
returns the whole match. -/
def matchDecimalAt (s : Line) : Option Line :=
  let p1 := takeDigits s
  if p1.1.isEmpty then none
  else
    match p1.2 with
    | '.' :: t =>
      let p2 := takeDigits t
      if p2.1.isEmpty then none else some (p1.1 ++ '.' :: p2.1)
    | _ => none

/-- Positional matcher for simple_quantity_pattern: digits, optional dot,
digits; returns capture group 1 (which is the whole match). -/
def matchSimpleQuantityAt (s : Line) : Option Line :=
  let p1 := takeDigits s
  if p1.1.isEmpty then none
  else
    match p1.2 with
    | '.' :: t => some (p1.1 ++ '.' :: (takeDigits t).1)
    | _ => some p1.1

/-- Positional matcher for roc_date_pattern: two-or-three digits, the year
character, one-or-two digits, a separator, one-or-two digits, the month
character; returns the three capture groups.  The greedy counted groups need
no backtracking across groups: shrinking a digit run leaves a digit at the
cursor where a non-digit literal is required. -/
def matchRocAt (s : Line) : Option (Line × Line × Line) :=
  let tryYear (n : Nat) : Option (Line × Line) :=
    match exactDigits n s with
    | some (y, '年' :: r) => some (y, r)
    | _ => none
  match tryYear 3 <|> tryYear 2 with
  | none => none
  | some (y, r1) =>
    let tryMonth (n : Nat) : Option (Line × Line) :=
      match exactDigits n r1 with
      | some (m, c :: r) => if isDateSep c then some (m, r) else none
      | _ => none
    match tryMonth 2 <|> tryMonth 1 with
    | none => none
    | some (m, r2) =>
      let tryDay (n : Nat) : Option Line :=
        match exactDigits n r2 with
        | some (d, '月' :: _) => some d
        | _ => none
      match tryDay 2 <|> tryDay 1 with
      | none => none
      | some d => some (y, m, d)

/-- Leftmost search for roc_date_pattern over all start positions. -/
def searchRoc : Line → Option (Line × Line × Line)
  | [] => matchRocAt []
  | c :: t =>
    match matchRocAt (c :: t) with
    | some r => some r
    | none => searchRoc t

/-- Positional matcher for simple_date_pattern: four digits, separator,
one-or-two digits, separator, one-or-two digits. -/
def matchSimpleDateAt (s : Line) : Option Line :=
  match exactDigits 4 s with
  | some (y, c1 :: r1) =>
    if isDateSep c1 then
      let tryMonth (n : Nat) : Option (Line × Line) :=
        match exactDigits n r1 with
        | some (m, c :: r) => if isDateSep c then some (m ++ [c], r) else none
        | _ => none
      match tryMonth 2 <|> tryMonth 1 with
      | some (m, r2) =>
        (match exactDigits 2 r2 with
         | some (d, _) => some (y ++ c1 :: m ++ d)
         | none =>
           match exactDigits 1 r2 with
           | some (d, _) => some (y ++ c1 :: m ++ d)
           | none => none)
      | none => none
    else none
  | _ => none

/-! Tables from backend/param.py.  Ordered exactly as the Python literals;
the fuzzy table lists the duplicated key once, at its first position. -/

/-- fuel_keywords. -/
def fuel_keywords : List Line :=
  ["超级柴油", "九五無鉛", "九二無鉛", "九八無鉛", "無鉛汽油", "超柴", "98號", "95號",
   "柴油", "九二", "九五", "九八", "92", "95", "98"].map String.toList

/-- fuel_mapping, as an association list in insertion order. -/
def fuel_mapping : List (Line × Line) :=
  [("九五", "九五無鉛"), ("95", "九五無鉛"), ("九二", "九二無鉛"), ("92", "九二無鉛"),
   ("九八", "九八無鉛"), ("98", "九八無鉛"), ("超级柴油", "超級柴油"), ("超柴", "超級柴油"),
   ("柴油", "超級柴油")].map (fun p => (p.1.toList, p.2.toList))

/-- fuel_fuzzy_mapping, in insertion order. -/
def fuel_fuzzy_mapping : List (Line × Line) :=
  [("無给", "無鉛"), ("无给", "無鉛"), ("無铅", "無鉛"), ("无铅", "無鉛"), ("柴油机", "柴油"),
   ("柴洒", "柴油"), ("超柴", "超級柴油"), ("超柴柴", "超級柴油"), ("九五無给", "九五無鉛"),
   ("九五無铅", "九五無鉛"), ("九二無给", "九二無鉛"), ("九八無给", "九八無鉛"),
   ("95+無给", "九五無鉛"), ("92+無给", "九二無鉛"), ("98+無给", "九八無鉛"),
   ("超及柴油", "超級柴油")].map (fun p => (p.1.toList, p.2.toList))

/-- district_keywords. -/
def district_keywords : List Line :=
  ["台北", "台中", "高雄", "台南", "屏東", "新北", "桃園", "新竹", "宜蘭", "苗栗",
   "彰化", "南投", "雲林", "嘉義", "台東", "花蓮", "金門", "連江", "澎湖"].map String.toList

/-- Python dict lookup fuel_mapping.get(k) as an Option. -/
def lookupMap (m : List (Line × Line)) (k : Line) : Option Line :=
  (m.find? (fun p => p.1 == k)).map (fun p => p.2)

/-- The values view fuel_mapping.values() used by the fuel-type validation. -/
def fuelMappingValues : List Line := fuel_mapping.map (fun p => p.2)

/-- convert_roc_to_western_date of param.py: western year is the Republic year
plus 1911; month must lie in 1..12 and day in 1..31, otherwise None; a missing
day becomes 1; the result is zero-padded YYYY-MM-DD.  The int conversions are
applied to captured digit strings and cannot fail. -/
def convert_roc_to_western_date (rocYear month : Line) (day : Option Line) : Option Line :=
  let wy := natFromDigits rocYear + 1911
  let m := natFromDigits month
  let d := match day with | none => 1 | some dd => natFromDigits dd
  if m < 1 || 12 < m then none
  else if d < 1 || 31 < d then none
  else some (padNat 4 wy ++ '-' :: padNat 2 m ++ '-' :: padNat 2 d)

/-- extract_and_convert_date of param.py: a Republic-calendar match is
converted (its converted value is returned even when the conversion yields
None); otherwise the Western pattern, then the flexible pattern. -/
def extract_and_convert_date (text : Line) : Option Line :=
  match searchRoc text with
  | some (y, m, d) => convert_roc_to_western_date y m (some d)
  | none =>
    match searchO matchDateAt text with
    | some w => some w
    | none => searchO matchSimpleDateAt text

/-- The fuzzy OCR-misread corrections applied in table order
(detect_fuel_type, first loop). -/
def applyFuzzy (t : Line) : Line :=
  fuel_fuzzy_mapping.foldl (fun acc p => replaceAll p.1 p.2 acc) t

/-- detect_fuel_type of app.py: apply the fuzzy corrections, collect every
keyword occurring in the text with its mapped label (the keyword itself when
the mapping has no entry for it), and return the label of the longest
keyword; the stable sort of the source keeps the earliest keyword among
longest ties, which the fold below reproduces. -/
def detect_fuel_type (text : Line) : Option Line :=
  let t := applyFuzzy text
  let ms := fuel_keywords.filterMap
    (fun f => if containsSub t f then some (f, (lookupMap fuel_mapping f).getD f) else none)
  match ms with
  | [] => none
  | m0 :: rest =>
    some ((rest.foldl (fun best p => if best.1.length < p.1.length then p else best) m0).2)

/-! The address pattern.  The code only tests whether address_pattern.search
finds a match (it then keeps the whole line), so the matcher below decides
existence of a match: a city token, an optional county/city suffix, at most
15 non-newline characters, a district-type character, at most 30 non-newline
characters, a road token, at most 30 non-newline characters and a digit (the
trailing group of the pattern is optional and cannot block a match). -/

/-- The city alternation of address_pattern, in pattern order. -/
def addressCityTokens : List Line :=
  ["台北", "新北", "桃園", "新竹", "苗栗", "台中", "彰化", "南投", "雲林", "嘉義", "台南",
   "高雄", "屏東", "宜蘭", "花蓮", "台東", "澎湖", "金門", "連江"].map String.toList

/-- The road-type alternation of address_pattern. -/
def roadTokens : List Line := ["路", "街", "巷", "弄", "大道", "段"].map String.toList

/-- The district-type character class of address_pattern. -/
def isDistrictSuffixC (c : Char) : Bool := c == '鄉' || c == '鎮' || c == '市' || c == '區'

/-- Dot of the pattern: any character except a newline. -/
def notNewline (c : Char) : Bool := c != '\n'

/-- Match continuation after skipping up to g filler characters. -/
def matchGapThen (k : Line → Bool) : Nat → Line → Bool
  | 0, s => k s
  | g + 1, s =>
    k s || (match s with
            | [] => false
            | c :: t => notNewline c && matchGapThen k g t)

/-- Rest of address_pattern after the city token. -/
def addressAfterCity (r : Line) : Bool :=
  let tail (r2 : Line) : Bool :=
    matchGapThen
      (fun r3 =>
        match r3 with
        | c :: t =>
          isDistrictSuffixC c &&
            matchGapThen
              (fun r4 =>
                roadTokens.any (fun rt =>
                  isPrefixL rt r4 &&
                    matchGapThen
                      (fun r5 =>
                        match r5 with
                        | d :: _ => isDigit09 d
                        | [] => false)
                      30 (r4.drop rt.length)))
              30 t
        | [] => false)
      15 r2
  match r with
  | c :: t => if c == '縣' || c == '市' then (tail t || tail r) else tail r
  | [] => tail r

/-- Whole address_pattern at one position. -/
def addressMatchAtB (s : Line) : Bool :=
  addressCityTokens.any (fun ct => isPrefixL ct s && addressAfterCity (s.drop ct.length))

/-- Existence of an address_pattern match anywhere in the line. -/
def addressSearchB : Line → Bool
  | [] => addressMatchAtB []
  | c :: t => addressMatchAtB (c :: t) || addressSearchB t

/-- Model of Python float(str) acceptance for the decimal forms the pipeline
produces: optional whitespace and sign, digits with an optional point (at
least one digit overall), and an optional exponent.  Special values such as
inf and nan are not modelled; no extracted quantity has those shapes. -/
def floatMantissaRest (s : Line) : Option Line :=
  let p1 := takeDigits s
  match p1.2 with
  | '.' :: t =>
    let p2 := takeDigits t
    if p1.1.isEmpty && p2.1.isEmpty then none else some p2.2
  | r => if p1.1.isEmpty then none else some r

/-- Optional exponent part of a float literal, which must use up the rest. -/
def floatExponentOk : Line → Bool
  | [] => true
  | c :: t =>
    if c == 'e' || c == 'E' then
      let t2 : Line := match t with
        | '+' :: u => u
        | '-' :: u => u
        | u => u
      let p := takeDigits t2
      !p.1.isEmpty && p.2.isEmpty
    else false

/-- Does float(s) succeed (decimal forms)? -/
def pyFloatParses (s : Line) : Bool :=
  let s1 := ((s.dropWhile isSpaceC).reverse.dropWhile isSpaceC).reverse
  let s2 : Line := match s1 with
    | '+' :: t => t
    | '-' :: t => t
    | t => t
  match floatMantissaRest s2 with
  | some r => floatExponentOk r
  | none => false

/-!  The per-region field extraction of app.py (extract_invoice_info),
decomposed into the loop over fuel-keyword lines, the unconditional scan,
the PaddleOCR fallback and the validation block. -/

/-- The indexed quantity loop of app.py lines 234-241: on a line containing a
fuel keyword, try the unit pattern, then the decimal fallback, then both on
the immediately following line; the first hit breaks the loop, and a
keyword line where all four attempts miss does not stop the scan. -/
def quantityKeywordScan : List Line → Option Line
  | [] => none
  | line :: rest =>
    if fuel_keywords.any (fun k => containsSub line k) then
      match searchO matchQuantityAt line with
      | some q => some q
      | none =>
        match searchO matchDecimalAt line with
        | some q => some q
        | none =>
          match rest with
          | next :: _ =>
            (match searchO matchQuantityAt next with
             | some q => some q
             | none =>
               match searchO matchDecimalAt next with
               | some q => some q
               | none => quantityKeywordScan rest)
          | [] => quantityKeywordScan rest
    else quantityKeywordScan rest

/-- The unconditional scan of app.py lines 243-245: the first
quantity_pattern (number with volume unit) match over all lines. -/
def firstUnitQuantity : List Line → Option Line
  | [] => none
  | l :: t =>
    match searchO matchQuantityAt l with
    | some q => some q
    | none => firstUnitQuantity t

/-- First quantity_fallback_pattern (bare decimal) match over all lines. -/
def firstDecimalQuantity : List Line → Option Line
  | [] => none
  | l :: t =>
    match searchO matchDecimalAt l with
    | some q => some q
    | none => firstDecimalQuantity t

/-- Quantity extraction of app.py: the keyword loop, then the unconditional
unit-pattern scan. -/
def extract_quantity_lines (allLines : List Line) : Option Line :=
  match quantityKeywordScan allLines with
  | some q => some q
  | none => firstUnitQuantity allLines

/-- Quantity extraction as the specification words it, for comparison with
extract_quantity_lines: the same keyword loop, but an unconditional scan
that returns the first bare decimal-number match. -/
def extract_quantity_specModel (allLines : List Line) : Option Line :=
  match quantityKeywordScan allLines with
  | some q => some q
  | none => firstDecimalQuantity allLines

/-- Python ' '.join. -/
def joinSpace (ls : List Line) : Line := List.intercalate [' '] ls

/-- The five optional fields of a region before validation. -/
structure PreFields where
  invoice_number : Option Line
  date : Option Line
  quantity : Option Line
  fuel_type : Option Line
  address : Option Line
deriving DecidableEq, Repr

/-- Primary extraction of app.py lines 225-254 from the CnOCR lines and the
EasyOCR lines: invoice number and date from the CnOCR lines only (one loop,
each field keeping its first match), quantity from all lines, fuel type from
the space-joined text, address from the EasyOCR lines (strict pattern first,
then the district/號/digit fallback, keeping the whole line). -/
def preFields (cn zh : List Line) : PreFields :=
  let allLines := cn ++ zh
  let invDate := cn.foldl
    (fun (p : Option Line × Option Line) line =>
      ((match p.1 with
        | some v => some v
        | none => searchO matchInvoiceAt line),
       (match p.2 with
        | some v => some v
        | none => searchO matchDateAt line)))
    (none, none)
  let qty := extract_quantity_lines allLines
  let fuel := detect_fuel_type (joinSpace allLines)
  let addr :=
    match zh.findSome? (fun l => if addressSearchB l then some l else none) with
    | some a => some a
    | none =>
      zh.findSome? (fun l =>
        if district_keywords.any (fun k => containsSub l k) && containsSub l ['號'] &&
            l.any isDigit09 then
          some l
        else none)
  ⟨invDate.1, invDate.2, qty, fuel, addr⟩

/-- Are all five fields present (Python all([...]) on the five values)? -/
def allFiveSome (p : PreFields) : Bool :=
  p.invoice_number.isSome && p.date.isSome && p.quantity.isSome &&
    p.fuel_type.isSome && p.address.isSome

/-- The guard of app.py line 257: the PaddleOCR fallback runs when any of
the five fields (address included) is missing and the engine is not None. -/
def fallbackCondition (pre : PreFields) (paddle : Option (List Line)) : Bool :=
  !allFiveSome pre && paddle.isSome

/-- Body of the PaddleOCR fallback (app.py lines 258-272): with an empty
recognition result nothing changes; otherwise each still-missing field among
invoice number, date, quantity and fuel type is refilled from the Paddle
lines; the address is never touched. -/
def paddleFallback (pre : PreFields) (paddleLines : List Line) : PreFields :=
  if paddleLines.isEmpty then pre
  else
    { invoice_number :=
        match pre.invoice_number with
        | some v => some v
        | none => paddleLines.findSome? (fun l => searchO matchInvoiceAt l)
      date :=
        match pre.date with
        | some v => some v
        | none => paddleLines.findSome? (fun l => searchO matchDateAt l)
      quantity :=
        match pre.quantity with
        | some v => some v
        | none => paddleLines.findSome? (fun l => searchO matchSimpleQuantityAt l)
      fuel_type :=
        match pre.fuel_type with
        | some v => some v
        | none => detect_fuel_type (joinSpace paddleLines)
      address := pre.address }

/-- Fields after the conditional fallback. -/
def afterFallback (pre : PreFields) (paddle : Option (List Line)) : PreFields :=
  if fallbackCondition pre paddle then
    match paddle with
    | some pl => paddleFallback pre pl
    | none => pre
  else pre

/-- The address correction table of app.py line 276, in insertion order. -/
def addressReplacements : List (Line × Line) :=
  [("半禹锈娜", "萬巒鄉"), ("号", "號"), ("锈", ""), ("娜", ""), ("潮洲", "潮州"),
   ("川", "州"), ("鎖", "鎮")].map (fun p => (p.1.toList, p.2.toList))

/-- Address cleaning, applying the correction table in order. -/
def cleanAddress (a : Line) : Line :=
  addressReplacements.foldl (fun acc p => replaceAll p.1 p.2 acc) a

/-- Invoice-number validation of app.py line 278: kept only on a full match
of invoice_number_pattern. -/
def validateInvoiceNumber : Option Line → Option Line
  | some s => if fullmatchInvoice8 s then some s else none
  | none => none

/-- Date validation of app.py line 279. -/
def validateDate : Option Line → Option Line
  | some s => if fullmatchDate s then some s else none
  | none => none

/-- Quantity validation of app.py lines 280-282: kept only when float()
succeeds. -/
def validateQuantity : Option Line → Option Line
  | some s => if pyFloatParses s then some s else none
  | none => none

/-- Fuel-type validation of app.py line 283: kept only when the value is one
of fuel_mapping.values(). -/
def validateFuelType : Option Line → Option Line
  | some s => if fuelMappingValues.contains s then some s else none
  | none => none

/-- Address validation of app.py line 284. -/
def validateAddress : Option Line → Option Line
  | some a =>
    if a.length < 6 || !containsSub a ['號'] ||
        !district_keywords.any (fun k => containsSub a k) then
      none
    else some a
  | none => none

/-- The whole validation block, in source order (clean the address, validate
the other four fields, validate the cleaned address). -/
def validateFields (p : PreFields) : PreFields :=
  { invoice_number := validateInvoiceNumber p.invoice_number
    date := validateDate p.date
    quantity := validateQuantity p.quantity
    fuel_type := validateFuelType p.fuel_type
    address := validateAddress (p.address.map cleanAddress) }

/-- One output row (the dict returned per region). -/
structure Record where
  page : Line
  invoice_number : Option Line
  date : Option Line
  fuel_type : Option Line
  quantity : Option Line
  address : Option Line
  remark : Line
deriving DecidableEq, Repr

/-- What the three engines return for one region image; None models an
engine whose initialization failed (the global slot holds Python None). -/
structure Engines where
  cnocr : Option (List Line)
  easyocr : Option (List Line)
  paddleocr : Option (List Line)
deriving DecidableEq, Repr

/-- The AttributeError message raised when a recognition method is called on
a None engine slot. -/
def attrErrMsg : Line := "AttributeError".toList

/-- extract_invoice_info of app.py.  Calling .ocr / .readtext on a None
engine raises, modelled by the error branch; otherwise the record is the
validated fields.  The Boolean reports whether the PaddleOCR engine was
invoked (app.py line 258 executed). -/
def extract_invoice_info (e : Engines) (page : Line) : Except Line (Record × Bool) :=
  match e.cnocr with
  | none => .error attrErrMsg
  | some cn =>
    match e.easyocr with
    | none => .error attrErrMsg
    | some zh =>
      let pre := preFields cn zh
      let v := validateFields (afterFallback pre e.paddleocr)
      .ok (⟨page, v.invoice_number, v.date, v.fuel_type, v.quantity, v.address, []⟩,
           fallbackCondition pre e.paddleocr)

/-- The all-null record with a diagnostic remark built by the per-region
exception handler. -/
def errorRecordFor (page msg : Line) : Record :=
  ⟨page, none, none, none, none, none, "處理錯誤: ".toList ++ msg⟩

/-- process_single_invoice_thread_safe of app.py: catches any exception of
the region's pipeline and degrades it to an all-null record. -/
def process_single_invoice_thread_safe (e : Engines) (page : Line) : Record :=
  match extract_invoice_info e page with
  | .ok r => r.1
  | .error msg => errorRecordFor page msg

/-!  Page segmentation (detect_invoices_from_pdf) and the batch orchestrator
(process_invoice_pdf).  Rasterization, thresholding, dilation and contour
extraction are external collaborators; a page is modelled by the contour set
the collaborator produces, each contour carrying its area and bounding box. -/

/-- A bounding box as returned by cv2.boundingRect. -/
structure Box where
  x : Nat
  y : Nat
  w : Nat
  h : Nat
deriving DecidableEq, Repr

/-- An external contour with its area and bounding box. -/
structure Contour where
  area : Nat
  box : Box
deriving DecidableEq, Repr

/-- The sort key order of app.py line 202: (y, x) lexicographically. -/
def YXle (a b : Box) : Prop := a.y < b.y ∨ (a.y = b.y ∧ a.x ≤ b.x)

instance (a b : Box) : Decidable (YXle a b) := by
  unfold YXle; infer_instance

/-- Stable insertion for the (y, x) key: an element goes in front of the
first element it is less-or-equal to, so earlier elements stay in front of
later equal-key ones, as in Python sorted. -/
def insertYX (a : Box) : List Box → List Box
  | [] => [a]
  | b :: t => if YXle a b then a :: b :: t else b :: insertYX a t

/-- Stable sort by the (y, x) key. -/
def sortYX : List Box → List Box
  | [] => []
  | b :: t => insertYX b (sortYX t)

/-- The dilation kernel size of app.py lines 194-197: int() truncation of
30 times max(width, height)/1000 (Nat division models the float truncation),
clamped between 20 and 80. -/
def ksize (width height : Nat) : Nat :=
  max 20 (min ((30 * max width height) / 1000) 80)

/-- Kernel size as the specification words it, for comparison with ksize:
round the scaled value to the nearest integer, then clamp (half rounds up). -/
def ksizeSpecModel (width height : Nat) : Nat :=
  max 20 (min ((30 * max width height + 500) / 1000) 80)

/-- One page of detect_invoices_from_pdf: keep the contours with area above
5000, take their bounding boxes, sort by (y, x). -/
def pageBoxes (contours : List Contour) : List Box :=
  sortYX ((contours.filter (fun c => 5000 < c.area)).map (fun c => c.box))

/-- detect_invoices_from_pdf: pages in order, each page's filtered sorted
boxes appended (page-major region order). -/
def detect_invoices_from_pdf (pages : List (List Contour)) : List Box :=
  (pages.map pageBoxes).flatten

/-- The result-collection loop of app.py lines 318-332: a preallocated slot
list of length len(tasks), filled at each completed index (in completion
order) with that task's record. -/
def runBatch (tasks : List Record) (completionOrder : List Nat) : List (Option Record) :=
  completionOrder.foldl (fun res i => res.set i tasks[i]?)
    (List.replicate tasks.length none)

/-- Outcome of one process_invoice_pdf run together with whether the
batch-scoped temporary directories still exist when control leaves the
function. -/
structure RunResult where
  outcome : Except Line (List (Option Record))
  tempDirsPresent : Bool
deriving Repr

/-- Message of the ValueError raised by ThreadPoolExecutor on a pool size
of zero. -/
def poolErrMsg : Line := "max_workers must be greater than 0".toList

/-- Error standing for a rasterization failure (unreadable PDF). -/
def convertErrMsg : Line := "could not read PDF".toList

/-- process_invoice_pdf of app.py.  The temporary directories are created at
the start of segmentation, before rasterization; pdf = none models an
unreadable input whose rasterization raises.  The pool size is
min(4, region count, cpu).  A zero pool size makes the executor constructor
raise (and the later per-region average would divide by zero).  The cleanup
of the temporary directories is the last statement before the return and is
reached only when every prior step succeeded.  perRegion gives each region's
record (the per-region wrapper never raises) and completionOrder the order
in which the workers finish. -/
def process_invoice_pdf (pdf : Option (List (List Contour))) (cpu : Nat)
    (perRegion : Box → Record) (completionOrder : List Nat) : RunResult :=
  match pdf with
  | none => ⟨.error convertErrMsg, true⟩
  | some pages =>
    let regions := detect_invoices_from_pdf pages
    let maxWorkers := min 4 (min regions.length cpu)
    if maxWorkers = 0 then ⟨.error poolErrMsg, true⟩
    else ⟨.ok (runBatch (regions.map perRegion) completionOrder), false⟩

/-!  Helper lemmas. -/

lemma YXle_trans {a b c : Box} (h1 : YXle a b) (h2 : YXle b c) : YXle a c := by
  unfold YXle at *; omega

lemma YXle_total (a b : Box) : YXle a b ∨ YXle b a := by
  unfold YXle; omega

lemma mem_insertYX (x a : Box) : ∀ (l : List Box), x ∈ insertYX a l ↔ x = a ∨ x ∈ l
  | [] => by simp [insertYX]
  | b :: t => by
    rw [insertYX]
    by_cases h : YXle a b
    · rw [if_pos h]; simp
    · rw [if_neg h, List.mem_cons, List.mem_cons, mem_insertYX x a t]
      tauto

lemma pairwise_insertYX (a : Box) :
    ∀ l : List Box, l.Pairwise YXle → (insertYX a l).Pairwise YXle
  | [], _ => by simp [insertYX]
  | b :: t, h => by
    rw [List.pairwise_cons] at h
    rw [insertYX]
    split
    · rename_i hab
      refine List.pairwise_cons.2 ⟨fun x hx => ?_, List.pairwise_cons.2 h⟩
      rcases List.mem_cons.1 hx with rfl | hxt
      · exact hab
      · exact YXle_trans hab (h.1 x hxt)
    · rename_i hab
      refine List.pairwise_cons.2 ⟨fun x hx => ?_, pairwise_insertYX a t h.2⟩
      rcases (mem_insertYX x a t).1 hx with hxa | hxt
      · subst hxa
        exact (YXle_total x b).resolve_left hab
      · exact h.1 x hxt

lemma pairwise_sortYX : ∀ l : List Box, (sortYX l).Pairwise YXle
  | [] => by simp [sortYX]
  | b :: t => pairwise_insertYX b (sortYX t) (pairwise_sortYX t)

lemma foldl_set_getElem? (tasks : List Record) (j : Nat) :
    ∀ (order : List Nat) (init : List (Option Record)),
      (order.foldl (fun res i => res.set i tasks[i]?) init)[j]? =
        if j ∈ order ∧ j < init.length then some tasks[j]? else init[j]?
  | [], init => by simp
  | i :: rest, init => by
    rw [List.foldl_cons, foldl_set_getElem? tasks j rest (init.set i tasks[i]?)]
    rw [List.length_set, List.getElem?_set]
    by_cases hl : j < init.length
    · by_cases hij : i = j
      · subst hij
        by_cases hr : i ∈ rest <;> simp [hr, hl, List.mem_cons]
      · by_cases hr : j ∈ rest <;> simp [hr, hl, hij, List.mem_cons, Ne.symm hij]
    · have hnone : init[j]? = none := List.getElem?_eq_none (by omega)
      by_cases hij : i = j
      · subst hij
        by_cases hr : i ∈ rest <;> simp [hr, hl, hnone]
      · by_cases hr : j ∈ rest <;> simp [hr, hl, hij, hnone, List.mem_cons, Ne.symm hij]

lemma runBatch_of_perm (tasks : List Record) (order : List Nat)
    (hmem : ∀ j, j < tasks.length → j ∈ order) :
    runBatch tasks order = tasks.map some := by
  apply List.ext_getElem?
  intro j
  rw [runBatch, foldl_set_getElem? tasks j order, List.length_replicate,
    List.getElem?_map, List.getElem?_replicate]
  by_cases hj : j < tasks.length
  · simp [hmem j hj, hj, List.getElem?_eq_getElem hj]
  · have : tasks[j]? = none := List.getElem?_eq_none (by omega)
    simp [hj, this]

lemma paddleFallback_address (pre : PreFields) (pl : List Line) :
    (paddleFallback pre pl).address = pre.address := by
  unfold paddleFallback
  split <;> rfl

lemma afterFallback_address (pre : PreFields) (paddle : Option (List Line)) :
    (afterFallback pre paddle).address = pre.address := by
  unfold afterFallback
  split
  · cases paddle with
    | none => rfl
    | some pl => exact paddleFallback_address pre pl
  · rfl

lemma afterFallback_paddle_none_eq_empty (pre : PreFields) :
    afterFallback pre none = afterFallback pre (some []) := by
  unfold afterFallback fallbackCondition paddleFallback
  cases h : allFiveSome pre <;> simp [h]

lemma fullmatchInvoice8_imp78 (s : Line) (h : fullmatchInvoice8 s = true) :
    fullmatchInvoice78 s = true := by
  rcases s with _ | ⟨a, _ | ⟨b, _ | ⟨c, rest⟩⟩⟩ <;>
    simp [fullmatchInvoice8, fullmatchInvoice78] at h ⊢ <;> tauto

lemma validateInvoiceNumber_all78 (o : Option Line) :
    (validateInvoiceNumber o).all fullmatchInvoice78 = true := by
  cases o with
  | none => rfl
  | some s =>
    unfold validateInvoiceNumber
    by_cases h : fullmatchInvoice8 s = true
    · simp [h, Option.all, fullmatchInvoice8_imp78 s h]
    · simp [h]

lemma firstUnitQuantity_eq_none_iff :
    ∀ ls : List Line,
      (firstUnitQuantity ls = none ↔ ∀ l ∈ ls, searchO matchQuantityAt l = none)
  | [] => by simp [firstUnitQuantity]
  | l :: t => by
    cases h : searchO matchQuantityAt l <;>
      simp [firstUnitQuantity, h, firstUnitQuantity_eq_none_iff t]

/-- Decidable equality of Except values, so concrete pipeline runs can be
checked by decide. -/
instance exceptDecEq {ε α : Type} [DecidableEq ε] [DecidableEq α] :
    DecidableEq (Except ε α) := fun x y =>
  match x, y with
  | .ok a, .ok b =>
    if h : a = b then isTrue (by rw [h]) else
      isFalse (fun hh => h (by cases hh; rfl))
  | .error a, .error b =>
    if h : a = b then isTrue (by rw [h]) else
      isFalse (fun hh => h (by cases hh; rfl))
  | .ok a, .error b => isFalse (fun hh => Except.noConfusion hh)
  | .error a, .ok b => isFalse (fun hh => Except.noConfusion hh)

/-!  The claims. -/

/-- Claim C1: for every input, the final report holds exactly one row per
segmented region, row i corresponding to the i-th region in the page-major
(y ascending, then x ascending) segmentation order, for every order in which
the worker tasks complete: whenever the completion order is a permutation of
the region indices and the pool size is positive, the orchestrator returns
exactly the per-region records in segmentation order; and each page's region
list is sorted by the (y, x) key. -/
theorem C1_report_rows_match_segmentation
    (pages : List (List Contour)) (cpu : Nat) (perRegion : Box → Record)
    (order : List Nat)
    (hperm : order.Perm (List.range (detect_invoices_from_pdf pages).length))
    (hpool : 0 < min 4 (min (detect_invoices_from_pdf pages).length cpu)) :
    (process_invoice_pdf (some pages) cpu perRegion order).outcome =
      .ok ((detect_invoices_from_pdf pages).map (fun b => some (perRegion b))) ∧
    ∀ cs : List Contour, (pageBoxes cs).Pairwise YXle := by
  constructor
  · unfold process_invoice_pdf
    dsimp only
    rw [if_neg (Nat.pos_iff_ne_zero.mp hpool)]
    have hmem : ∀ j, j < ((detect_invoices_from_pdf pages).map perRegion).length →
        j ∈ order := by
      intro j hj
      rw [List.length_map] at hj
      exact hperm.mem_iff.2 (List.mem_range.2 hj)
    rw [runBatch_of_perm _ order hmem, List.map_map]
    rfl
  · intro cs
    exact pairwise_sortYX _

/-- Witness for C1: a two-page document with three qualifying regions,
completed in the order 2, 0, 1, still yields the rows in segmentation
order. -/
theorem C1_report_rows_match_segmentation_witness :
    [2, 0, 1].Perm (List.range (detect_invoices_from_pdf
      [[⟨6000, ⟨5, 9, 10, 10⟩⟩, ⟨6000, ⟨1, 2, 10, 10⟩⟩, ⟨100, ⟨0, 0, 10, 10⟩⟩],
       [⟨5500, ⟨7, 7, 10, 10⟩⟩]]).length) ∧
    (process_invoice_pdf
      (some [[⟨6000, ⟨5, 9, 10, 10⟩⟩, ⟨6000, ⟨1, 2, 10, 10⟩⟩, ⟨100, ⟨0, 0, 10, 10⟩⟩],
             [⟨5500, ⟨7, 7, 10, 10⟩⟩]]) 4
      (fun b => errorRecordFor (padNat 2 b.x) []) [2, 0, 1]).outcome =
      .ok ((detect_invoices_from_pdf
        [[⟨6000, ⟨5, 9, 10, 10⟩⟩, ⟨6000, ⟨1, 2, 10, 10⟩⟩, ⟨100, ⟨0, 0, 10, 10⟩⟩],
         [⟨5500, ⟨7, 7, 10, 10⟩⟩]]).map
        (fun b => some (errorRecordFor (padNat 2 b.x) []))) :=
  ⟨by decide,
   (C1_report_rows_match_segmentation _ 4 _ [2, 0, 1] (by decide) (by decide)).1⟩

/-- Claim C2, counterexample: the Primary (cnocr) engine slot is None after a
failed initialization while the Secondary engine is available, yet the
region's extraction raises AttributeError (dereferencing the None slot)
instead of contributing zero lines, and the per-region caller receives the
exception and degrades the whole region to an error record. -/
theorem C2_engine_failure_counterexample :
    extract_invoice_info ⟨none, some ["AB-12345678".toList], some []⟩ "p".toList
      = .error attrErrMsg ∧
    process_single_invoice_thread_safe ⟨none, some ["AB-12345678".toList], some []⟩
      "p".toList = errorRecordFor "p".toList attrErrMsg :=
  ⟨rfl, rfl⟩

/-- Claim C2 amended: only the Tertiary (paddleocr) engine is guarded for
unavailability — an unavailable Tertiary engine behaves exactly like one
returning zero lines and raises nothing; if the Primary or the Secondary
engine failed to initialize, the recognition call raises and the exception
propagates out of the region's extraction to the per-region wrapper, which
absorbs it into an all-null record with a diagnostic remark. -/
theorem C2_engine_failure_amended :
    (∀ zh pl page, process_single_invoice_thread_safe ⟨none, zh, pl⟩ page
        = errorRecordFor page attrErrMsg) ∧
    (∀ cn pl page, process_single_invoice_thread_safe ⟨some cn, none, pl⟩ page
        = errorRecordFor page attrErrMsg) ∧
    (∀ cn zh page, process_single_invoice_thread_safe ⟨some cn, some zh, none⟩ page
        = process_single_invoice_thread_safe ⟨some cn, some zh, some []⟩ page) := by
  refine ⟨fun zh pl page => ?_, fun cn pl page => ?_, fun cn zh page => ?_⟩
  · cases zh <;> rfl
  · rfl
  · simp [process_single_invoice_thread_safe, extract_invoice_info,
      afterFallback_paddle_none_eq_empty]

/-- Claim C3, counterexample: a region whose Primary lines already yield
invoice number, date, quantity and fuel type — only the address is missing —
still triggers the Tertiary fallback pass (the returned flag records that
the PaddleOCR call of app.py line 258 was executed). -/
theorem C3_fallback_trigger_counterexample :
    extract_invoice_info
      ⟨some ["AB-12345678".toList, "2023-05-10".toList, "柴油 30.5L".toList],
       some [], some []⟩ "p".toList
      = .ok (⟨"p".toList, some "AB-12345678".toList, some "2023-05-10".toList,
              some "超級柴油".toList, some "30.5".toList, none, []⟩, true) := by
  decide

/-- Claim C3 amended: the Tertiary fallback pass is invoked iff at least one
of the five fields — address included — is still null after the primary
extraction and the Tertiary engine is available; the fallback never
re-derives the address (the final address does not depend on the Tertiary
lines). -/
theorem C3_fallback_trigger_amended :
    (∀ cn zh paddle page,
      ((extract_invoice_info ⟨some cn, some zh, paddle⟩ page).toOption.map
          (fun r => r.2) = some true ↔
        allFiveSome (preFields cn zh) = false ∧ paddle.isSome = true)) ∧
    (∀ cn zh pl1 pl2 page,
      (extract_invoice_info ⟨some cn, some zh, some pl1⟩ page).toOption.map
          (fun r => r.1.address) =
        (extract_invoice_info ⟨some cn, some zh, some pl2⟩ page).toOption.map
          (fun r => r.1.address)) := by
  constructor
  · intro cn zh paddle page
    simp [extract_invoice_info, Except.toOption, fallbackCondition]
  · intro cn zh pl1 pl2 page
    simp [extract_invoice_info, Except.toOption, validateFields, afterFallback_address]

/-- Claim C4: in every final record a non-null invoice number fully matches
the canonical grammar of two capitals, a dash and seven-or-eight digits (the
code in fact enforces the stricter exactly-eight-digit pattern, which
entails this grammar), and a computed invoice number that fails the grammar
is surfaced as null. -/
theorem C4_invoice_number_grammar :
    (∀ e page, ((process_single_invoice_thread_safe e page).invoice_number).all
        fullmatchInvoice78 = true) ∧
    (∀ s, fullmatchInvoice78 s = false → validateInvoiceNumber (some s) = none) := by
  constructor
  · intro e page
    obtain ⟨cn, zh, pl⟩ := e
    cases cn with
    | none => rfl
    | some c =>
      cases zh with
      | none => rfl
      | some z =>
        simp only [process_single_invoice_thread_safe, extract_invoice_info,
          validateFields]
        exact validateInvoiceNumber_all78 _
  · intro s h
    unfold validateInvoiceNumber
    by_cases h8 : fullmatchInvoice8 s = true
    · exact absurd (fullmatchInvoice8_imp78 s h8) (by simp [h])
    · simp [h8]

/-- Witness for C4: a concrete malformed invoice number is rejected by the
validation. -/
theorem C4_invoice_number_grammar_witness :
    fullmatchInvoice78 "AB-123".toList = false ∧
    validateInvoiceNumber (some "AB-123".toList) = none :=
  ⟨by decide, C4_invoice_number_grammar.2 "AB-123".toList (by decide)⟩

/-- Claim C5, counterexample: a readable one-page PDF yielding zero regions
makes the run fail (zero worker-pool size) after the temporary directories
were created, and control leaves process_invoice_pdf with the directories
still in place — the deletion is not reached on this exit path. -/
theorem C5_temp_cleanup_counterexample :
    (process_invoice_pdf (some [[]]) 4 (fun _ => errorRecordFor [] []) []).outcome
      = .error poolErrMsg ∧
    (process_invoice_pdf (some [[]]) 4 (fun _ => errorRecordFor [] []) []).tempDirsPresent
      = true :=
  ⟨rfl, rfl⟩

/-- Claim C5 amended: the batch-scoped temporary directories are deleted
before the call returns exactly on the success path; on every failure after
their creation (unreadable PDF, zero regions) they are left in place,
because the cleanup statements sit after the report generation with no
try/finally around them. -/
theorem C5_temp_cleanup_amended :
    ∀ pdf cpu f order,
      (process_invoice_pdf pdf cpu f order).tempDirsPresent
        = !(process_invoice_pdf pdf cpu f order).outcome.isOk := by
  intro pdf cpu f order
  cases pdf with
  | none => rfl
  | some pages =>
    unfold process_invoice_pdf
    dsimp only
    split <;> rfl

/-- Claim C6, counterexample: a corpus whose single line is a bare decimal
with no fuel keyword and no volume unit: the claimed unconditional
decimal-number scan would return 30.6, but the code's final scan looks for
the number-with-volume-unit pattern and leaves the quantity null. -/
theorem C6_quantity_fallback_counterexample :
    extract_quantity_lines ["30.6".toList] = none ∧
    firstDecimalQuantity ["30.6".toList] = some "30.6".toList ∧
    extract_quantity_specModel ["30.6".toList] = some "30.6".toList :=
  ⟨rfl, rfl, rfl⟩

/-- Claim C6 amended: when the fuel-keyword pass finds nothing, the extractor
scans the full corpus for the first match of the number-with-volume-unit
pattern (not the bare decimal pattern), and the quantity remains null iff
that scan finds no unit-pattern match on any line. -/
theorem C6_quantity_fallback_amended :
    ∀ allLines, quantityKeywordScan allLines = none →
      extract_quantity_lines allLines = firstUnitQuantity allLines ∧
      (extract_quantity_lines allLines = none ↔
        ∀ l ∈ allLines, searchO matchQuantityAt l = none) := by
  intro allLines h
  have h1 : extract_quantity_lines allLines = firstUnitQuantity allLines := by
    unfold extract_quantity_lines
    rw [h]
  exact ⟨h1, by rw [h1]; exact firstUnitQuantity_eq_none_iff allLines⟩

/-- Witness for C6 amended: a keyword-free corpus with a unit-bearing line. -/
theorem C6_quantity_fallback_amended_witness :
    quantityKeywordScan ["30.6 L".toList] = none ∧
    extract_quantity_lines ["30.6 L".toList] = firstUnitQuantity ["30.6 L".toList] ∧
    extract_quantity_lines ["30.6 L".toList] = some "30.6".toList :=
  ⟨by decide, (C6_quantity_fallback_amended ["30.6 L".toList] (by decide)).1, by decide⟩

/-- Claim C7, counterexample: in the thread-pool pipeline a Primary line
reading 112年05-10月 yields a null date (only the Western pattern is
searched there; no Republic-calendar conversion exists in that pipeline), so
the final record does not carry 2023-05-10. -/
theorem C7_roc_date_counterexample :
    process_single_invoice_thread_safe
      ⟨some ["112年05-10月".toList], some [], some []⟩ "p".toList
      = ⟨"p".toList, none, none, none, none, none, []⟩ := by
  decide

/-- Claim C7 amended: the Republic-calendar conversion lives in param.py's
extract_and_convert_date (used by the OCRService variant, not by the
thread-pool pipeline): on 112年05-10月 it matches the ROC pattern with
groups 112, 05, 10 and converts them with western year 112 + 1911 = 2023 to
2023-05-10; the thread-pool pipeline's own Primary-line date extraction
returns null on the same text. -/
theorem C7_roc_date_amended :
    extract_and_convert_date "112年05-10月".toList = some "2023-05-10".toList ∧
    searchRoc "112年05-10月".toList = some ("112".toList, "05".toList, "10".toList) ∧
    convert_roc_to_western_date "112".toList "05".toList (some "10".toList)
      = some "2023-05-10".toList ∧
    (preFields ["112年05-10月".toList] []).date = none :=
  ⟨rfl, rfl, rfl, rfl⟩

/-- Claim C8, counterexample: for a page with max(width, height) = 1999 the
code computes int(30 × 1999/1000) = int(59.97) = 59 by truncation, while the
claimed rounding would give 60. -/
theorem C8_kernel_size_counterexample :
    ksize 1999 1 = 59 ∧ ksizeSpecModel 1999 1 = 60 ∧
    ksize 1999 1 ≠ ksizeSpecModel 1999 1 := by
  refine ⟨by decide, by decide, by decide⟩

/-- Claim C8 amended: the dilation kernel side length is the floor
(int() truncation), not the rounding, of 30 × max(width, height)/1000,
clamped to at least 20 and at most 80. -/
theorem C8_kernel_size_amended :
    ∀ w h : Nat,
      ksize w h = max 20 (min (Nat.floor ((30 * (max w h : ℚ)) / 1000)) 80) ∧
      20 ≤ ksize w h ∧ ksize w h ≤ 80 := by
  intro w h
  refine ⟨?_, ?_, ?_⟩
  · have h1 : ((30 : ℚ) * (max w h : ℚ)) = ((30 * max w h : ℕ) : ℚ) := by
      push_cast
      ring
    have h2 : ((1000 : ℚ)) = ((1000 : ℕ) : ℚ) := by norm_num
    rw [h1, h2, Nat.floor_div_nat, Nat.floor_natCast]
    rfl
  · exact le_max_left 20 _
  · exact max_le (by norm_num) (min_le_right _ 80)

/-- Claim C9: when segmentation succeeds with zero regions, the worker-pool
size min(4, 0, cpu) evaluates to 0 and process_invoice_pdf raises (the
executor constructor rejects a zero pool size; the later per-invoice average
would also divide by zero) instead of returning an empty report. -/
theorem C9_zero_regions_raise
    (pages : List (List Contour)) (cpu : Nat) (f : Box → Record) (order : List Nat)
    (h : detect_invoices_from_pdf pages = []) :
    min 4 (min (detect_invoices_from_pdf pages).length cpu) = 0 ∧
    (process_invoice_pdf (some pages) cpu f order).outcome = .error poolErrMsg := by
  have h0 : min 4 (min (detect_invoices_from_pdf pages).length cpu) = 0 := by
    rw [h]
    simp
  refine ⟨h0, ?_⟩
  unfold process_invoice_pdf
  dsimp only
  rw [if_pos h0]

/-- Witness for C9: a one-page PDF whose only page has no qualifying
contour. -/
theorem C9_zero_regions_raise_witness :
    detect_invoices_from_pdf [[⟨100, ⟨0, 0, 1, 1⟩⟩]] = [] ∧
    (process_invoice_pdf (some [[⟨100, ⟨0, 0, 1, 1⟩⟩]]) 8
      (fun _ => errorRecordFor [] []) [0]).outcome = .error poolErrMsg :=
  ⟨by decide,
   (C9_zero_regions_raise [[⟨100, ⟨0, 0, 1, 1⟩⟩]] 8 _ [0] (by decide)).2⟩

/-- Claim C10, counterexample: the keyword 九五無鉛 has no entry (key) in
fuel_mapping, detect_fuel_type returns it verbatim, yet the validation keeps
it, because it happens to coincide with a canonical label in
fuel_mapping.values(): the final record's fuel type is non-null. -/
theorem C10_unmapped_keyword_counterexample :
    lookupMap fuel_mapping "九五無鉛".toList = none ∧
    detect_fuel_type "九五無鉛".toList = some "九五無鉛".toList ∧
    validateFuelType (some "九五無鉛".toList) = some "九五無鉛".toList ∧
    (process_single_invoice_thread_safe ⟨some ["九五無鉛".toList], some [], none⟩
      "p".toList).fuel_type = some "九五無鉛".toList := by
  refine ⟨by decide, by decide, by decide, by decide⟩

/-- Claim C10 amended: detect_fuel_type returns a keyword with no
fuel_mapping entry verbatim, and the validation nulls it exactly when the
verbatim keyword is not one of the canonical labels (fuel_mapping.values()):
無鉛汽油, 98號 and 95號 are nulled as the claim says, but the likewise
unmapped keywords 九五無鉛, 九二無鉛 and 九八無鉛 survive validation. -/
theorem C10_unmapped_keyword_amended :
    (∀ s, validateFuelType (some s)
        = if fuelMappingValues.contains s then some s else none) ∧
    (detect_fuel_type "無鉛汽油".toList = some "無鉛汽油".toList ∧
      validateFuelType (some "無鉛汽油".toList) = none ∧
      (process_single_invoice_thread_safe ⟨some ["無鉛汽油".toList], some [], none⟩
        "p".toList).fuel_type = none) ∧
    (detect_fuel_type "98號".toList = some "98號".toList ∧
      validateFuelType (some "98號".toList) = none) ∧
    (detect_fuel_type "95號".toList = some "95號".toList ∧
      validateFuelType (some "95號".toList) = none) ∧
    (lookupMap fuel_mapping "九二無鉛".toList = none ∧
      validateFuelType (some "九二無鉛".toList) = some "九二無鉛".toList) ∧
    (lookupMap fuel_mapping "九八無鉛".toList = none ∧
      validateFuelType (some "九八無鉛".toList) = some "九八無鉛".toList) := by
  refine ⟨fun s => rfl, ⟨by decide, by decide, by decide⟩, ⟨by decide, by decide⟩,
    ⟨by decide, by decide⟩, ⟨by decide, by decide⟩, ⟨by decide, by decide⟩⟩

end WorkStation







